import Mathlib

/-!
Verification development for the SAML identity-provider core
(`object/saml_idp.go` of casdoor).

The Go source is shallowly embedded below.  External collaborators that
live outside the provided source file (the user store, `IsRedirectUriValid`,
`getOriginFromHost`, `getCertByApplication`, the XML/zlib/base64/signing
libraries, the wall clock and the UUID generator) are modelled either from
the specification (with a doc comment saying so) or as explicit parameters
recording the outcome of the one call the pipeline makes to them.
-/

set_option maxHeartbeats 1000000

namespace SamlIdp

/-- A decoded SAML authentication request (`saml.AuthnRequest`): the three
fields the pipeline reads or writes. -/
structure AuthnRequest where
  ID : String
  IssuerUrl : String
  AssertionConsumerServiceURL : String
deriving Repr, DecidableEq

/-- The relying application's configuration fields consumed by this core. -/
structure Application where
  Owner : String
  Name : String
  RedirectUris : List String
  SamlReplyUrl : String
  EnableSamlCompress : Bool
deriving Repr, DecidableEq

/-- Modelled from the spec: the principal record ("User") is defined outside
this source file; the spec gives it a name, an email, a display name and an
ordered sequence of role strings. -/
structure User where
  Name : String
  Email : String
  DisplayName : String
  Roles : List String
deriving Repr, DecidableEq

/-- Modelled from the spec: `ExtendUserWithRolesAndPermissions` resolves the
principal's effective roles through an external authorization collaborator;
here the principal record is modelled as already carrying its resolved
roles, so the call is the identity. -/
def ExtendUserWithRolesAndPermissions (u : User) : User := u

/-- Modelled from the spec: `user.getRolesString()` serializes the resolved
roles as a delimited string. -/
def User.getRolesString (u : User) : String :=
  String.intercalate "," u.Roles

/-- Modelled from the spec: `IsRedirectUriValid` (defined outside this
source file) passes exactly when the issuer URL exactly matches at least
one entry of the application's redirect-URI set. -/
def Application.IsRedirectUriValid (app : Application) (uri : String) : Bool :=
  app.RedirectUris.contains uri

/-- An etree element: tag (Space:Tag), attributes in creation order,
children in creation order, text. -/
inductive XElem where
  | node (tag : String) (attrs : List (String × String)) (children : List XElem) (text : String)

instance : Inhabited XElem := ⟨.node "" [] [] ""⟩

def XElem.tag : XElem → String
  | .node t _ _ _ => t

def XElem.attrs : XElem → List (String × String)
  | .node _ a _ _ => a

def XElem.children : XElem → List XElem
  | .node _ _ c _ => c

def XElem.text : XElem → String
  | .node _ _ _ s => s

/-- Look up an attribute value by name. -/
def XElem.findAttr (e : XElem) (k : String) : Option String :=
  e.attrs.lookup k

/-- First child with the given tag. -/
def XElem.findChild (e : XElem) (t : String) : Option XElem :=
  e.children.find? (fun c => c.tag == t)

/-- Insertion at an index into a child list; an index past the end appends
(etree `InsertChildAt` semantics). -/
def insertListAt {α : Type} : Nat → α → List α → List α
  | 0, a, l => a :: l
  | _ + 1, a, [] => [a]
  | n + 1, a, x :: xs => x :: insertListAt n a xs

/-- etree `InsertChildAt`. -/
def XElem.insertChildAt (e : XElem) (i : Nat) (c : XElem) : XElem :=
  match e with
  | .node t a cs txt => .node t a (insertListAt i c cs) txt

/-- Number of seconds in the fixed 24-hour validity window
(`time.Hour * 24`). -/
def dayseconds : Nat := 24 * 3600

/-- NewSamlResponse: builds the SAML 2.0 response tree.  The wall clock is
injected as `now` (an instant in seconds; the source calls `time.Now()`
twice, which under a fixed clock yields the same instant), `fmtTime` is the
RFC3339 formatter, `uuids` the random UUID source (consumed in source
order: response ID, assertion ID, session index).  The source's returned
error is the literal `nil`, modelled as `none`. -/
def NewSamlResponse (now : Nat) (fmtTime : Nat → String) (uuids : Nat → String)
    (user : User) (host certificate destination iss requestId : String)
    (redirectUri : List String) : XElem × Option String :=
  let _ := certificate
  let nowS := fmtTime now
  let expireS := fmtTime (now + dayseconds)
  let user := ExtendUserWithRolesAndPermissions user
  let attrValue (v : String) : XElem :=
    .node "saml:AttributeValue" [("xsi:type", "xs:string")] [] v
  let namedAttr (n v : String) : XElem :=
    .node "saml:Attribute"
      [("Name", n), ("NameFormat", "urn:oasis:names:tc:SAML:2.0:attrname-format:basic")]
      [attrValue v] ""
  (.node "samlp:Response"
    [("xmlns:samlp", "urn:oasis:names:tc:SAML:2.0:protocol"),
     ("xmlns:saml", "urn:oasis:names:tc:SAML:2.0:assertion"),
     ("ID", "_" ++ uuids 0),
     ("Version", "2.0"),
     ("IssueInstant", nowS),
     ("Destination", destination),
     ("InResponseTo", requestId)]
    [.node "saml:Issuer" [] [] host,
     .node "samlp:Status" []
       [.node "samlp:StatusCode"
         [("Value", "urn:oasis:names:tc:SAML:2.0:status:Success")] [] ""] "",
     .node "saml:Assertion"
       [("xmlns:xsi", "http://www.w3.org/2001/XMLSchema-instance"),
        ("xmlns:xs", "http://www.w3.org/2001/XMLSchema"),
        ("ID", "_" ++ uuids 1),
        ("Version", "2.0"),
        ("IssueInstant", nowS)]
       [.node "saml:Issuer" [] [] host,
        .node "saml:Subject" []
          [.node "saml:NameID" [] [] user.Name,
           .node "saml:SubjectConfirmation"
             [("Method", "urn:oasis:names:tc:SAML:2.0:cm:bearer")]
             [.node "saml:SubjectConfirmationData"
               [("InResponseTo", requestId), ("Recipient", destination),
                ("NotOnOrAfter", expireS)] [] ""] ""] "",
        .node "saml:Conditions"
          [("NotBefore", nowS), ("NotOnOrAfter", expireS)]
          [.node "saml:AudienceRestriction" []
            (.node "saml:Audience" [] [] iss ::
              redirectUri.map (fun v => .node "saml:Audience" [] [] v)) ""] "",
        .node "saml:AuthnStatement"
          [("AuthnInstant", nowS), ("SessionIndex", "_" ++ uuids 2),
           ("SessionNotOnOrAfter", expireS)]
          [.node "saml:AuthnContext" []
            [.node "saml:AuthnContextClassRef" [] []
              "urn:oasis:names:tc:SAML:2.0:ac:classes:PasswordProtectedTransport"] ""] "",
        .node "saml:AttributeStatement" []
          [namedAttr "Email" user.Email,
           namedAttr "Name" user.Name,
           namedAttr "DisplayName" user.DisplayName,
           namedAttr "Roles" user.getRolesString] ""] ""] "",
   none)

/-- A JSON value as far as the legacy builder's flattening observes it:
a string, a null, or a non-string composite (e.g. an array). -/
inductive JsonVal where
  | str (s : String)
  | null
  | arr (xs : List String)
deriving Repr, DecidableEq

/-- Modelled from the spec: `json.Marshal(user)` over the principal record
defined outside this file.  The scalar profile fields serialize as JSON
strings; the role sequence serializes as a JSON array when nonempty and as
JSON null when empty (a Go nil slice). -/
def marshalUser (u : User) : List (String × JsonVal) :=
  [("name", .str u.Name),
   ("email", .str u.Email),
   ("displayName", .str u.DisplayName),
   ("roles", if u.Roles.isEmpty then .null else .arr u.Roles)]

/-- Go error text for unmarshalling a JSON array into a string. -/
def jsonArrayErrMsg : String :=
  "json: cannot unmarshal array into Go value of type string"

/-- Unmarshalling one JSON value into a Go string: strings succeed, null
leaves the zero value, anything else is a type error. -/
def unmarshalVal : JsonVal → Except String String
  | .str s => .ok s
  | .null => .ok ""
  | .arr _ => .error jsonArrayErrMsg

/-- Unmarshalling `data` into a Go `map[string]string`: fails with the
first type error among the values. -/
def unmarshalToStringMap : List (String × JsonVal) → Except String (List (String × String))
  | [] => .ok []
  | (k, v) :: rest =>
    match unmarshalVal v with
    | .error e => .error e
    | .ok s =>
      match unmarshalToStringMap rest with
      | .error e => .error e
      | .ok tail => .ok ((k, s) :: tail)

/-- The legacy builder either returns a tree or panics (aborts the
process). -/
inductive Build11Result where
  | panicked (msg : String)
  | built (e : XElem)

def Build11Result.builtOrDefault : Build11Result → XElem
  | .built e => e
  | .panicked _ => default

/-- The flattened attribute elements of the legacy builder: one
`saml:Attribute` per non-empty value of the key/value map.  (Go iterates
the map in unspecified order; the insertion order is used here.) -/
def flattenAttrs (tmp : List (String × String)) : List XElem :=
  (tmp.filter (fun kv => kv.2 != "")).map (fun kv =>
    .node "saml:Attribute"
      [("saml:AttributeName", kv.1),
       ("saml:AttributeNamespace", "http://www.ja-sig.org/products/cas/")]
      [.node "saml:AttributeValue" [] [] kv.2] "")

/-- NewSamlResponse11: builds the SAML 1.1 response tree, or panics when
`json.Unmarshal` of the marshalled principal into `map[string]string`
fails.  (In the source the panic fires after the fixed part of the tree is
built; since nothing is returned on panic, checking the flattening first is
observationally the same.) -/
def NewSamlResponse11 (now : Nat) (fmtTime : Nat → String) (uuids : Nat → String)
    (user : User) (requestID host : String) : Build11Result :=
  match unmarshalToStringMap (marshalUser user) with
  | .error e => .panicked e
  | .ok tmp =>
    let nowS := fmtTime now
    let expireS := fmtTime (now + dayseconds)
    .built (.node "samlp:Response"
      [("xmlns:samlp", "urn:oasis:names:tc:SAML:1.0:protocol"),
       ("MajorVersion", "1"),
       ("MinorVersion", "1"),
       ("ResponseID", "_" ++ uuids 0),
       ("InResponseTo", requestID),
       ("IssueInstant", nowS)]
      [.node "samlp:Status" []
         [.node "samlp:StatusCode" [("Value", "samlp:Success")] [] ""] "",
       .node "saml:Assertion"
         [("xmlns:saml", "urn:oasis:names:tc:SAML:1.0:assertion"),
          ("MajorVersion", "1"),
          ("MinorVersion", "1"),
          ("AssertionID", uuids 1),
          ("Issuer", host),
          ("IssueInstant", nowS)]
         [.node "saml:Conditions"
            [("NotBefore", nowS), ("NotOnOrAfter", expireS)] [] "",
          .node "saml:AuthenticationStatement"
            [("AuthenticationMethod", "urn:oasis:names:tc:SAML:1.0:am:password"),
             ("AuthenticationInstant", nowS)] [] "",
          .node "saml:Subject" []
            [.node "saml:NameIdentifier" [] [] user.Name,
             .node "saml:SubjectConfirmation" []
               [.node "saml:ConfirmationMethod" [] []
                 "urn:oasis:names:tc:SAML:1.0:cm:artifact"] ""] "",
          .node "saml:AttributeStatement" []
            (.node "saml:Subject" []
              [.node "saml:NameIdentifier" [] [] user.Name,
               .node "saml:SubjectConfirmation" []
                 [.node "saml:ConfirmationMethod" [] []
                   "urn:oasis:names:tc:SAML:1.0:cm:artifact"] ""] "" ::
              flattenAttrs tmp) ""] ""] "")

/-- A certificate record as consumed from the external certificate store. -/
structure Cert where
  Certificate : String
  PrivateKey : String
deriving Repr, DecidableEq

/-- Pipeline stages of `GetSamlResponse`, recorded as a ghost trace in
source order. -/
inductive Stage where
  | decode
  | inflate
  | unmarshal
  | validateIssuer
  | resolveDestination
  | build
  | sign
  | serialize
  | compress
  | encode
deriving Repr, DecidableEq

/-- Outcomes of the external-library calls `GetSamlResponse` makes, one
field per call site, in source order.  Byte strings are `List Nat`. -/
structure Externals where
  /-- Outcome of `base64.StdEncoding.DecodeString(samlRequest)`. -/
  base64DecodeResult : Except String (List Nat)
  /-- Outcome of the decompression `io.Copy(&buffer, flate.NewReader(...))`. -/
  inflateResult : Except String (List Nat)
  /-- Outcome of `xml.Unmarshal(buffer.Bytes(), &authnRequest)`. -/
  unmarshalResult : Except String AuthnRequest
  /-- the base64 re-encoding of the PEM-decoded application certificate. -/
  certificate : String
  /-- Outcome of `ctx.ConstructSignature(samlResponse, true)`. -/
  constructSigResult : Except String XElem
  /-- Outcome of `doc.WriteToBytes()`. -/
  writeToBytesResult : Except String (List Nat)
  /-- error of `flate.NewWriter(flated, flate.DefaultCompression)`. -/
  flateNewWriterErr : Option String
  /-- error of `writer.Write(xmlBytes)`. -/
  writerWriteErr : Option String
  /-- error of `writer.Close()`. -/
  writerCloseErr : Option String
  /-- Value of `flated.Bytes()` after a successful compression. -/
  compressedBytes : List Nat
  /-- The encoder `base64.StdEncoding.EncodeToString`. -/
  base64Encode : List Nat → String

/-- The four return values of `GetSamlResponse`
`(res, url, method, err)`; a Go `nil` error is `none`. -/
structure GoResult where
  res : String
  url : String
  method : String
  err : Option String
deriving Repr, DecidableEq

/-- Ghost observations of one `GetSamlResponse` run: the stages executed,
the (possibly overwritten) request at response-building time, whether the
signature construction succeeded, and the document handed to
serialization. -/
structure Trace where
  stages : List Stage
  finalRequest : Option AuthnRequest
  sigOk : Option Bool
  signedDoc : Option XElem

/-- Outcome of one `GetSamlResponse` run: the program either returns its
four values or aborts in a runtime panic and returns nothing; the ghost
`Trace` (up to the point of return or abort) is carried either way. -/
inductive GoOutcome where
  | panicked (msg : String) (t : Trace)
  | returned (r : GoResult) (t : Trace)

/-- The ghost trace of a run, whether it returned or aborted. -/
def GoOutcome.trace : GoOutcome → Trace
  | .panicked _ t => t
  | .returned _ t => t

/-- The four returned values of a run, when it returned at all. -/
def GoOutcome.result? : GoOutcome → Option GoResult
  | .panicked _ _ => none
  | .returned r _ => some r

/-- The returned HTTP-method value of a run, when it returned at all. -/
def GoOutcome.httpMethod : GoOutcome → Option String
  | .panicked _ _ => none
  | .returned r _ => some r.method

/-- The Go runtime's message for a nil-pointer dereference panic. -/
def nilDereferencePanicMsg : String :=
  "runtime error: invalid memory address or nil pointer dereference"

def decodeErrMsg (e : String) : String :=
  "err: Failed to decode SAML request , " ++ e

def unmarshalErrMsg (e : String) : String :=
  "err: Failed to unmarshal AuthnRequest, please check the SAML request. " ++ e

/-- The `UnauthorizedIssuerError` message of the source. -/
def unauthorizedIssuerError (uri : String) : String :=
  "err: Issuer URI: " ++ uri ++ " doesn\x27t exist in the allowed Redirect URI list"

/-- The `MissingDestinationError` message of the source. -/
def missingDestinationError : String :=
  "err: SAML request don\x27t has attribute \x27AssertionConsumerServiceURL\x27 in <samlp:AuthnRequest>"

def serializeErrMsg (e : String) : String :=
  "err: Failed to serializes the SAML request into bytes, " ++ e

/-- GetSamlResponse: the full response pipeline, mirrored from the source
control flow.  `getOriginFromHost` is the external origin splitter
(frontend, backend); the injected clock, formatter and UUID source are as
in `NewSamlResponse`.  Three source facts are embedded faithfully: the
destination-resolution step overwrites `authnRequest`'s consumer-service
URL when the application's reply URL is set; the error returned by
`ConstructSignature` is never examined (the `err` variable is reassigned
by `doc.WriteToBytes()` before any check); and on a failed
`ConstructSignature` the nil signature token is still passed to
`InsertChildAt`, whose nil-receiver dereference inside etree aborts the
run with a runtime panic, so nothing is serialized, encoded or returned on
that path. -/
def GetSamlResponse (app : Application) (user : User) (host : String)
    (now : Nat) (fmtTime : Nat → String) (uuids : Nat → String)
    (getOriginFromHost : String → String × String)
    (ext : Externals) : GoOutcome :=
  let method := "GET"
  match ext.base64DecodeResult with
  | .error e =>
    .returned ⟨"", "", method, some (decodeErrMsg e)⟩ ⟨[.decode], none, none, none⟩
  | .ok _ =>
    match ext.inflateResult with
    | .error e =>
      .returned ⟨"", "", "", some e⟩ ⟨[.decode, .inflate], none, none, none⟩
    | .ok _ =>
      match ext.unmarshalResult with
      | .error e =>
        .returned ⟨"", "", method, some (unmarshalErrMsg e)⟩
          ⟨[.decode, .inflate, .unmarshal], none, none, none⟩
      | .ok authnRequest =>
        if ¬ app.IsRedirectUriValid authnRequest.IssuerUrl then
          .returned ⟨"", "", method, some (unauthorizedIssuerError authnRequest.IssuerUrl)⟩
            ⟨[.decode, .inflate, .unmarshal, .validateIssuer], none, none, none⟩
        else
          let certificate := ext.certificate
          -- source order: `if application.SamlReplyUrl != "" {...} else if ... == "" {...}`;
          -- `cont` is the rest of the pipeline, entered with the selected
          -- method and the (possibly overwritten) request
          let cont : String → AuthnRequest → GoOutcome :=
            fun method authnRequest =>
            let originBackend := (getOriginFromHost host).2
            let samlResponse :=
              (NewSamlResponse now fmtTime uuids user originBackend certificate
                authnRequest.AssertionConsumerServiceURL authnRequest.IssuerUrl
                authnRequest.ID app.RedirectUris).1
            let pre : List Stage :=
              [.decode, .inflate, .unmarshal, .validateIssuer, .resolveDestination,
               .build, .sign]
            -- sig, err := ctx.ConstructSignature(samlResponse, true); the error
            -- is never examined and the token is inserted unconditionally
            match ext.constructSigResult with
            | .error _ =>
              -- the returned signature element is nil; etree dereferences the
              -- nil receiver inside InsertChildAt and the run aborts
              .panicked nilDereferencePanicMsg
                ⟨pre, some authnRequest, some false, none⟩
            | .ok sig =>
              let signedDoc := samlResponse.insertChildAt 1 sig
              match ext.writeToBytesResult with
              | .error e =>
                .returned ⟨"", "", method, some (serializeErrMsg e)⟩
                  ⟨pre ++ [.serialize], some authnRequest, some true, some signedDoc⟩
              | .ok xmlBytes =>
                if app.EnableSamlCompress then
                  match ext.flateNewWriterErr with
                  | some e =>
                    .returned ⟨"", "", method, some e⟩
                      ⟨pre ++ [.serialize, .compress], some authnRequest, some true,
                       some signedDoc⟩
                  | none =>
                    match ext.writerWriteErr with
                    | some e =>
                      .returned ⟨"", "", "", some e⟩
                        ⟨pre ++ [.serialize, .compress], some authnRequest, some true,
                         some signedDoc⟩
                    | none =>
                      match ext.writerCloseErr with
                      | some e =>
                        .returned ⟨"", "", "", some e⟩
                          ⟨pre ++ [.serialize, .compress], some authnRequest, some true,
                           some signedDoc⟩
                      | none =>
                        .returned ⟨ext.base64Encode ext.compressedBytes,
                            authnRequest.AssertionConsumerServiceURL, method, none⟩
                          ⟨pre ++ [.serialize, .compress, .encode], some authnRequest,
                           some true, some signedDoc⟩
                else
                  .returned ⟨ext.base64Encode xmlBytes,
                      authnRequest.AssertionConsumerServiceURL, method, none⟩
                    ⟨pre ++ [.serialize, .encode], some authnRequest, some true,
                     some signedDoc⟩
          if app.SamlReplyUrl = "" then
            if authnRequest.AssertionConsumerServiceURL = "" then
              .returned ⟨"", "", "", some missingDestinationError⟩
                ⟨[.decode, .inflate, .unmarshal, .validateIssuer, .resolveDestination],
                 none, none, none⟩
            else cont method authnRequest
          else
            cont "POST"
              { authnRequest with AssertionConsumerServiceURL := app.SamlReplyUrl }

/-- Metadata: single sign-on service descriptor. -/
structure SingleSignOnService where
  Binding : String
  Location : String
deriving Repr, DecidableEq

/-- Metadata: one declared attribute. -/
structure MdAttribute where
  Xmlns : String
  Name : String
  NameFormat : String
  FriendlyName : String
deriving Repr, DecidableEq

/-- Metadata: IdP SSO descriptor (the certificate is kept as the re-encoded
base64 string). -/
structure IdpSSODescriptor where
  ProtocolSupportEnumeration : String
  SigningCertificate : String
  NameIDFormats : List String
  SingleSignOnService : SingleSignOnService
  Attribute : List MdAttribute
deriving Repr, DecidableEq

/-- Metadata: entity descriptor. -/
structure IdpEntityDescriptor where
  DS : String
  XMLNS : String
  MD : String
  EntityId : String
  IdpSSODescriptor : IdpSSODescriptor
deriving Repr, DecidableEq

/-- GetSamlMeta: builds the IdP metadata document.  `getCertByApplication`
(the external certificate store), `pemToBase64` (the PEM decode plus base64
re-encode of the certificate body) and `getOriginFromHost` are the external
collaborators, passed as parameters. -/
def GetSamlMeta (getCertByApplication : Application → Cert)
    (pemToBase64 : String → String)
    (getOriginFromHost : String → String × String)
    (application : Application) (host : String) : IdpEntityDescriptor :=
  let cert := getCertByApplication application
  let certificate := pemToBase64 cert.Certificate
  let originFrontend := (getOriginFromHost host).1
  let originBackend := (getOriginFromHost host).2
  { DS := "http://www.w3.org/2000/09/xmldsig#"
    XMLNS := "urn:oasis:names:tc:SAML:2.0:metadata"
    MD := "urn:oasis:names:tc:SAML:2.0:metadata"
    EntityId := originBackend
    IdpSSODescriptor :=
      { SigningCertificate := certificate
        NameIDFormats :=
          ["urn:oasis:names:tc:SAML:1.1:nameid-format:emailAddress",
           "urn:oasis:names:tc:SAML:2.0:nameid-format:persistent",
           "urn:oasis:names:tc:SAML:2.0:nameid-format:transient"]
        Attribute :=
          [{ Xmlns := "urn:oasis:names:tc:SAML:2.0:assertion", Name := "Email",
             NameFormat := "urn:oasis:names:tc:SAML:2.0:attrname-format:basic",
             FriendlyName := "E-Mail" },
           { Xmlns := "urn:oasis:names:tc:SAML:2.0:assertion", Name := "DisplayName",
             NameFormat := "urn:oasis:names:tc:SAML:2.0:attrname-format:basic",
             FriendlyName := "displayName" },
           { Xmlns := "urn:oasis:names:tc:SAML:2.0:assertion", Name := "Name",
             NameFormat := "urn:oasis:names:tc:SAML:2.0:attrname-format:basic",
             FriendlyName := "Name" }]
        SingleSignOnService :=
          { Binding := "urn:oasis:names:tc:SAML:2.0:bindings:HTTP-Redirect",
            Location := originFrontend ++ "/login/saml/authorize/" ++
              application.Owner ++ "/" ++ application.Name }
        ProtocolSupportEnumeration := "urn:oasis:names:tc:SAML:2.0:protocol" } }

/-- A sample application: one allow-listed redirect URI, no forced reply
URL, compression off. -/
def sampleApp : Application :=
  ⟨"admin", "app", ["https://sp.example"], "", false⟩

/-- A sample principal with no roles. -/
def sampleUser : User :=
  ⟨"alice", "alice@example.com", "Alice", []⟩

/-- A sample decoded request. -/
def sampleReq : AuthnRequest :=
  ⟨"req-1", "https://sp.example", "https://sp.example/acs"⟩

/-- External-call outcomes in which every library call succeeds. -/
def okExternals : Externals :=
  { base64DecodeResult := .ok []
    inflateResult := .ok []
    unmarshalResult := .ok sampleReq
    certificate := "CERT"
    constructSigResult := .ok (.node "ds:Signature" [] [] "")
    writeToBytesResult := .ok [60, 115]
    flateNewWriterErr := none
    writerWriteErr := none
    writerCloseErr := none
    compressedBytes := [1]
    base64Encode := fun _ => "PAYLOAD" }

/-- C2: for every request processed, the `InResponseTo` attribute of the
produced response document equals the originating request's ID, in both the
SAML 2.0 builder (`NewSamlResponse`) and the legacy SAML 1.1 builder
(`NewSamlResponse11`, whenever it produces a document at all). -/
theorem inResponseTo_matches_request (now : Nat) (fmtTime uuids : Nat → String)
    (user : User) (host certificate destination iss requestId : String)
    (redirectUri : List String) (requestID host11 : String) :
    ((NewSamlResponse now fmtTime uuids user host certificate destination iss
        requestId redirectUri).1).findAttr "InResponseTo" = some requestId
    ∧ (∀ e, NewSamlResponse11 now fmtTime uuids user requestID host11 = .built e →
        e.findAttr "InResponseTo" = some requestID) := by
  constructor
  · simp [NewSamlResponse, XElem.findAttr, XElem.attrs, List.lookup]
  · intro e he
    rcases h : unmarshalToStringMap (marshalUser user) with msg | tmp <;>
      simp [NewSamlResponse11, h] at he
    subst he
    simp [XElem.findAttr, XElem.attrs, List.lookup]

/-- C2 witness: evaluated at a concrete request/principal. -/
theorem inResponseTo_matches_request_witness :
    ((NewSamlResponse 0 (fun n => toString n) (fun n => toString n)
        ⟨"alice", "alice@example.com", "Alice", []⟩ "h" "c" "d" "i" "rid" []).1).findAttr
      "InResponseTo" = some "rid"
    ∧ (Build11Result.builtOrDefault (NewSamlResponse11 0 (fun n => toString n)
        (fun n => toString n) ⟨"alice", "alice@example.com", "Alice", []⟩
        "req9" "h")).findAttr "InResponseTo" = some "req9" := by
  have h := inResponseTo_matches_request 0 (fun n => toString n) (fun n => toString n)
    ⟨"alice", "alice@example.com", "Alice", []⟩ "h" "c" "d" "i" "rid" [] "req9" "h"
  exact ⟨h.1, h.2 _ rfl⟩

/-- C5: in every document produced (for the injected fixed clock `now`,
which models both `time.Now()` calls of the source), the conditions block's
`NotOnOrAfter` instant is `now + 24h` while `IssueInstant` is `now`, in
both builders; the window is exactly 24 hours and `NotOnOrAfter` is
strictly later than `IssueInstant`. -/
theorem validity_window_24h (now : Nat) (fmtTime uuids : Nat → String)
    (user : User) (host certificate destination iss requestId : String)
    (redirectUri : List String) (requestID host11 : String) :
    ((NewSamlResponse now fmtTime uuids user host certificate destination iss
        requestId redirectUri).1).findAttr "IssueInstant" = some (fmtTime now)
    ∧ ((((NewSamlResponse now fmtTime uuids user host certificate destination iss
        requestId redirectUri).1).findChild "saml:Assertion").bind
        (fun a => a.findChild "saml:Conditions")).bind
        (fun c => c.findAttr "NotOnOrAfter") = some (fmtTime (now + dayseconds))
    ∧ (∀ e, NewSamlResponse11 now fmtTime uuids user requestID host11 = .built e →
        e.findAttr "IssueInstant" = some (fmtTime now)
        ∧ ((e.findChild "saml:Assertion").bind
            (fun a => a.findChild "saml:Conditions")).bind
            (fun c => c.findAttr "NotOnOrAfter") = some (fmtTime (now + dayseconds)))
    ∧ now < now + dayseconds
    ∧ (now + dayseconds) - now = 24 * 3600 := by
  refine ⟨?_, ?_, ?_, ?_, ?_⟩
  · simp [NewSamlResponse, XElem.findAttr, XElem.attrs, List.lookup]
  · simp [NewSamlResponse, XElem.findChild, XElem.findAttr, XElem.children,
      XElem.attrs, XElem.tag, List.find?, List.lookup]
  · intro e he
    rcases h : unmarshalToStringMap (marshalUser user) with msg | tmp <;>
      simp [NewSamlResponse11, h] at he
    subst he
    constructor
    · simp [XElem.findAttr, XElem.attrs, List.lookup]
    · simp [XElem.findChild, XElem.findAttr, XElem.children, XElem.attrs,
        XElem.tag, List.find?, List.lookup]
  · simp [dayseconds]
  · simp [dayseconds]

/-- C5 witness: evaluated at a concrete fixed clock and principal. -/
theorem validity_window_24h_witness :
    ((NewSamlResponse 1700000000 (fun n => toString n) (fun n => toString n)
        ⟨"alice", "alice@example.com", "Alice", []⟩ "h" "c" "d" "i" "rid" []).1).findAttr
      "IssueInstant" = some (toString 1700000000)
    ∧ (Build11Result.builtOrDefault (NewSamlResponse11 1700000000 (fun n => toString n)
        (fun n => toString n) ⟨"alice", "alice@example.com", "Alice", []⟩
        "req9" "h")).findAttr "IssueInstant" = some (toString 1700000000)
    ∧ 1700000000 + dayseconds - 1700000000 = 24 * 3600 := by
  have h := validity_window_24h 1700000000 (fun n => toString n) (fun n => toString n)
    ⟨"alice", "alice@example.com", "Alice", []⟩ "h" "c" "d" "i" "rid" [] "req9" "h"
  exact ⟨h.1, (h.2.2.1 _ rfl).1, h.2.2.2.2⟩

/-- C6: in every SAML 2.0 response built by `NewSamlResponse`, the
`AudienceRestriction` element holds exactly one `Audience` child for the
request issuer URL followed by one per configured redirect URI, and
nothing else. -/
theorem audience_restriction_exact (now : Nat) (fmtTime uuids : Nat → String)
    (user : User) (host certificate destination iss requestId : String)
    (redirectUri : List String) :
    ((((NewSamlResponse now fmtTime uuids user host certificate destination iss
        requestId redirectUri).1).findChild "saml:Assertion").bind
        (fun a => a.findChild "saml:Conditions")).bind
        (fun c => c.findChild "saml:AudienceRestriction")
      = some (XElem.node "saml:AudienceRestriction" []
          (XElem.node "saml:Audience" [] [] iss ::
            redirectUri.map (fun v => XElem.node "saml:Audience" [] [] v)) "") := by
  simp [NewSamlResponse, XElem.findChild, XElem.children, XElem.tag, List.find?]

/-- C8: for every application and host, the metadata document built by
`GetSamlMeta` advertises a single sign-on service at exactly
`frontendOrigin ++ "/login/saml/authorize/" ++ owner ++ "/" ++ name` with
the HTTP-Redirect binding. -/
theorem metadata_sso_location (getCertByApplication : Application → Cert)
    (pemToBase64 : String → String) (getOriginFromHost : String → String × String)
    (application : Application) (host : String) :
    (GetSamlMeta getCertByApplication pemToBase64 getOriginFromHost application
        host).IdpSSODescriptor.SingleSignOnService
      = { Binding := "urn:oasis:names:tc:SAML:2.0:bindings:HTTP-Redirect",
          Location := (getOriginFromHost host).1 ++ "/login/saml/authorize/" ++
            application.Owner ++ "/" ++ application.Name } := by
  rfl

/-- C9: the legacy builder `NewSamlResponse11` aborts (panics rather than
returning an error) whenever serializing the principal into the generic
string key/value map fails, and this branch is reachable: a principal with
a nonempty role sequence serializes its roles as a JSON array, which cannot
be unmarshalled into a string map. -/
theorem legacy_marshal_failure_panics :
    (∀ (now : Nat) (fmtTime uuids : Nat → String) (user : User)
      (requestID host msg : String),
      unmarshalToStringMap (marshalUser user) = .error msg →
      NewSamlResponse11 now fmtTime uuids user requestID host = .panicked msg)
    ∧ NewSamlResponse11 0 (fun n => toString n) (fun n => toString n)
        ⟨"alice", "alice@example.com", "Alice", ["admin"]⟩ "req-1" "casdoor.example"
      = .panicked jsonArrayErrMsg := by
  constructor
  · intro now fmtTime uuids user requestID host msg h
    simp [NewSamlResponse11, h]
  · rfl

/-- C9 witness: the panic branch taken at a concrete principal. -/
theorem legacy_marshal_failure_panics_witness :
    NewSamlResponse11 1 (fun n => toString n) (fun n => toString n)
      ⟨"bob", "bob@example.com", "Bob", ["user"]⟩ "req-2" "idp.example"
      = .panicked jsonArrayErrMsg :=
  legacy_marshal_failure_panics.1 1 _ _ _ _ _ _ rfl

/-- C1: once a request decodes, an issuer URL outside the redirect-URI set
makes `GetSamlResponse` return exactly the `UnauthorizedIssuerError`
result, with the trace stopping at issuer validation (no document is built
and no later stage runs); an allow-listed issuer lets the pipeline proceed
to destination resolution. -/
theorem issuer_gate (app : Application) (user : User) (host : String)
    (now : Nat) (fmtTime uuids : Nat → String) (gof : String → String × String)
    (ext : Externals) (b1 b2 : List Nat) (req : AuthnRequest)
    (h1 : ext.base64DecodeResult = .ok b1)
    (h2 : ext.inflateResult = .ok b2)
    (h3 : ext.unmarshalResult = .ok req) :
    (app.IsRedirectUriValid req.IssuerUrl = false →
      GetSamlResponse app user host now fmtTime uuids gof ext
        = .returned ⟨"", "", "GET", some (unauthorizedIssuerError req.IssuerUrl)⟩
            ⟨[.decode, .inflate, .unmarshal, .validateIssuer], none, none, none⟩)
    ∧ (app.IsRedirectUriValid req.IssuerUrl = true →
      Stage.resolveDestination ∈
        (GetSamlResponse app user host now fmtTime uuids gof ext).trace.stages) := by
  constructor
  · intro hv
    simp [GetSamlResponse, h1, h2, h3, hv]
  · intro hv
    simp only [GetSamlResponse, h1, h2, h3, hv]
    repeat' split
    all_goals simp_all [GoOutcome.trace]

/-- C1 witness: a rejected and an accepted issuer at concrete inputs. -/
theorem issuer_gate_witness :
    GetSamlResponse sampleApp sampleUser "idp.example" 0 (fun n => toString n)
        (fun n => toString n) (fun h => (h, h))
        { okExternals with
          unmarshalResult :=
            Except.ok (AuthnRequest.mk "req-1" "https://evil.example" "https://sp.example/acs") }
      = .returned ⟨"", "", "GET", some (unauthorizedIssuerError "https://evil.example")⟩
          ⟨[.decode, .inflate, .unmarshal, .validateIssuer], none, none, none⟩
    ∧ Stage.resolveDestination ∈
        (GetSamlResponse sampleApp sampleUser "idp.example" 0 (fun n => toString n)
          (fun n => toString n) (fun h => (h, h)) okExternals).trace.stages := by
  constructor
  · exact (issuer_gate sampleApp sampleUser "idp.example" 0 (fun n => toString n)
      (fun n => toString n) (fun h => (h, h))
      { okExternals with
        unmarshalResult :=
          Except.ok (AuthnRequest.mk "req-1" "https://evil.example" "https://sp.example/acs") }
      [] [] ⟨"req-1", "https://evil.example", "https://sp.example/acs"⟩
      rfl rfl rfl).1 rfl
  · exact (issuer_gate sampleApp sampleUser "idp.example" 0 (fun n => toString n)
      (fun n => toString n) (fun h => (h, h)) okExternals
      [] [] sampleReq rfl rfl rfl).2 rfl

/-- C3 (code bug): at a concrete run where signature construction fails
with malformed key material, `GetSamlResponse` never surfaces a
`SignatureError`: the error from `ConstructSignature` is never examined
(the `err` variable is reassigned before any check; the commented-out
block at source lines 285-288 shows the intended check), the nil
signature token is inserted anyway, and the nil-receiver dereference
inside etree aborts the run in a runtime panic — no error value and no
document are ever returned to the caller, contradicting the claim that a
`SignatureError` is surfaced. -/
theorem signature_error_never_surfaced :
    GetSamlResponse sampleApp sampleUser "idp.example" 0 (fun n => toString n)
        (fun n => toString n) (fun h => (h, h))
        { okExternals with constructSigResult := .error "malformed key material" }
      = .panicked nilDereferencePanicMsg
          ⟨[.decode, .inflate, .unmarshal, .validateIssuer, .resolveDestination,
            .build, .sign], some sampleReq, some false, none⟩
    ∧ (GetSamlResponse sampleApp sampleUser "idp.example" 0 (fun n => toString n)
        (fun n => toString n) (fun h => (h, h))
        { okExternals with constructSigResult := .error "malformed key material" }).result?
      = none :=
  ⟨rfl, rfl⟩

/-- C4: with a decoded request and an allow-listed issuer: a configured
reply URL forces method POST and that URL as the destination of any
produced response, overriding the request's consumer-service URL; with no
reply URL, a request-carried consumer-service URL gives method GET and
that URL; with both absent the call fails with `MissingDestinationError`
and the trace shows no document was built. -/
theorem method_destination_selection (app : Application) (user : User) (host : String)
    (now : Nat) (fmtTime uuids : Nat → String) (gof : String → String × String)
    (ext : Externals) (b1 b2 : List Nat) (req : AuthnRequest)
    (h1 : ext.base64DecodeResult = .ok b1)
    (h2 : ext.inflateResult = .ok b2)
    (h3 : ext.unmarshalResult = .ok req)
    (hv : app.IsRedirectUriValid req.IssuerUrl = true) :
    (app.SamlReplyUrl ≠ "" →
      ∀ res, (GetSamlResponse app user host now fmtTime uuids gof ext).result?
          = some res →
        res.err = none → res.method = "POST" ∧ res.url = app.SamlReplyUrl)
    ∧ (app.SamlReplyUrl = "" → req.AssertionConsumerServiceURL ≠ "" →
      ∀ res, (GetSamlResponse app user host now fmtTime uuids gof ext).result?
          = some res →
        res.err = none → res.method = "GET"
        ∧ res.url = req.AssertionConsumerServiceURL)
    ∧ (app.SamlReplyUrl = "" → req.AssertionConsumerServiceURL = "" →
      (GetSamlResponse app user host now fmtTime uuids gof ext).result?
        = some ⟨"", "", "", some missingDestinationError⟩
      ∧ Stage.build ∉
          (GetSamlResponse app user host now fmtTime uuids gof ext).trace.stages) := by
  refine ⟨?_, ?_, ?_⟩
  · intro hrep res hres herr
    simp only [GetSamlResponse, h1, h2, h3, hv] at hres
    simp only [hrep] at hres
    repeat' split at hres
    all_goals simp [GoOutcome.result?] at hres
    all_goals try subst hres
    all_goals simp_all
  · intro hrep hacs res hres herr
    simp only [GetSamlResponse, h1, h2, h3, hv] at hres
    simp only [hrep, hacs] at hres
    repeat' split at hres
    all_goals simp [GoOutcome.result?] at hres
    all_goals try subst hres
    all_goals simp_all
  · intro hrep hacs
    simp [GetSamlResponse, h1, h2, h3, hv, hrep, hacs, GoOutcome.result?,
      GoOutcome.trace]

/-- C4 witness: the GET branch taken at concrete inputs, applied to the
concrete result that run returns. -/
theorem method_destination_selection_witness :
    GoResult.method ⟨"PAYLOAD", "https://sp.example/acs", "GET", none⟩ = "GET"
    ∧ GoResult.url ⟨"PAYLOAD", "https://sp.example/acs", "GET", none⟩
      = "https://sp.example/acs" := by
  exact (method_destination_selection sampleApp sampleUser "idp.example" 0
    (fun n => toString n) (fun n => toString n) (fun h => (h, h)) okExternals
    [] [] sampleReq rfl rfl rfl rfl).2.1 rfl (by decide)
    ⟨"PAYLOAD", "https://sp.example/acs", "GET", none⟩ rfl rfl

/-- C7 counterexample: with the application reply URL set, the pipeline
overwrites the decoded request's consumer-service URL before building the
response — the parsed request is not immutable. -/
theorem request_mutation_counterexample :
    okExternals.unmarshalResult
      = .ok ⟨"req-1", "https://sp.example", "https://sp.example/acs"⟩
    ∧ (GetSamlResponse { sampleApp with SamlReplyUrl := "https://reply.example" }
        sampleUser "idp.example" 0 (fun n => toString n) (fun n => toString n)
        (fun h => (h, h)) okExternals).trace.finalRequest
      = some ⟨"req-1", "https://sp.example", "https://reply.example"⟩
    ∧ ("https://reply.example" : String) ≠ "https://sp.example/acs" := by
  refine ⟨rfl, rfl, by decide⟩

/-- C7 amended: the ID and issuer URL of the decoded request are never
modified by any later pipeline stage; the consumer-service URL is
overwritten with the application's reply URL exactly when that reply URL
is set, and is left unchanged otherwise. -/
theorem request_fields_after_pipeline (app : Application) (user : User)
    (host : String) (now : Nat) (fmtTime uuids : Nat → String)
    (gof : String → String × String) (ext : Externals) (req r : AuthnRequest)
    (h3 : ext.unmarshalResult = .ok req)
    (hr : (GetSamlResponse app user host now fmtTime uuids gof ext).trace.finalRequest
      = some r) :
    r.ID = req.ID ∧ r.IssuerUrl = req.IssuerUrl
    ∧ r.AssertionConsumerServiceURL =
        (if app.SamlReplyUrl = "" then req.AssertionConsumerServiceURL
         else app.SamlReplyUrl) := by
  simp only [GetSamlResponse, h3] at hr
  repeat' split at hr
  all_goals simp [GoOutcome.trace] at hr
  all_goals try subst hr
  all_goals simp_all

/-- C7 amended, witness: evaluated with the reply URL set. -/
theorem request_fields_after_pipeline_witness :
    (⟨"req-1", "https://sp.example", "https://reply.example"⟩ : AuthnRequest).ID
      = "req-1"
    ∧ (⟨"req-1", "https://sp.example", "https://reply.example"⟩ : AuthnRequest).IssuerUrl
      = "https://sp.example"
    ∧ (⟨"req-1", "https://sp.example", "https://reply.example"⟩ :
        AuthnRequest).AssertionConsumerServiceURL
      = (if ("https://reply.example" : String) = "" then "https://sp.example/acs"
         else "https://reply.example") := by
  exact request_fields_after_pipeline
    { sampleApp with SamlReplyUrl := "https://reply.example" } sampleUser
    "idp.example" 0 (fun n => toString n) (fun n => toString n) (fun h => (h, h))
    okExternals sampleReq ⟨"req-1", "https://sp.example", "https://reply.example"⟩
    rfl rfl

/-- C10 counterexample: the missing-destination failure path (neither a
decompression failure nor a compression write/close failure) also returns
the empty string as the method, not the currently selected method
("GET"). -/
theorem failure_method_counterexample :
    (GetSamlResponse sampleApp sampleUser "idp.example" 0 (fun n => toString n)
        (fun n => toString n) (fun h => (h, h))
        { okExternals with
          unmarshalResult := Except.ok (AuthnRequest.mk "req-1" "https://sp.example" "") }).result?
      = some ⟨"", "", "", some missingDestinationError⟩
    ∧ ("" : String) ≠ "GET" := by
  refine ⟨rfl, by decide⟩

/-- C10 amended: the HTTP-method return value of `GetSamlResponse` is the
empty string on decompression failure, on the missing-destination failure,
and on compression write/close failure; every other failure path (base64
decoding, request unmarshalling, issuer validation, serialization, and
compression-writer construction) returns the currently selected method. -/
theorem failure_method_by_path (app : Application) (user : User) (host : String)
    (now : Nat) (fmtTime uuids : Nat → String) (gof : String → String × String)
    (ext : Externals) :
    (∀ e, ext.base64DecodeResult = .error e →
      (GetSamlResponse app user host now fmtTime uuids gof ext).httpMethod = some "GET")
    ∧ (∀ b1 e, ext.base64DecodeResult = .ok b1 → ext.inflateResult = .error e →
      (GetSamlResponse app user host now fmtTime uuids gof ext).httpMethod = some "")
    ∧ (∀ b1 b2 e, ext.base64DecodeResult = .ok b1 → ext.inflateResult = .ok b2 →
      ext.unmarshalResult = .error e →
      (GetSamlResponse app user host now fmtTime uuids gof ext).httpMethod = some "GET")
    ∧ (∀ b1 b2 req, ext.base64DecodeResult = .ok b1 → ext.inflateResult = .ok b2 →
      ext.unmarshalResult = .ok req → app.IsRedirectUriValid req.IssuerUrl = false →
      (GetSamlResponse app user host now fmtTime uuids gof ext).httpMethod = some "GET")
    ∧ (∀ b1 b2 req, ext.base64DecodeResult = .ok b1 → ext.inflateResult = .ok b2 →
      ext.unmarshalResult = .ok req → app.IsRedirectUriValid req.IssuerUrl = true →
      app.SamlReplyUrl = "" → req.AssertionConsumerServiceURL = "" →
      (GetSamlResponse app user host now fmtTime uuids gof ext).httpMethod = some "")
    ∧ (∀ b1 b2 req sig e, ext.base64DecodeResult = .ok b1 → ext.inflateResult = .ok b2 →
      ext.unmarshalResult = .ok req → app.IsRedirectUriValid req.IssuerUrl = true →
      (app.SamlReplyUrl = "" → req.AssertionConsumerServiceURL ≠ "") →
      ext.constructSigResult = .ok sig → ext.writeToBytesResult = .error e →
      (GetSamlResponse app user host now fmtTime uuids gof ext).httpMethod
        = some (if app.SamlReplyUrl = "" then "GET" else "POST"))
    ∧ (∀ b1 b2 req sig bx e, ext.base64DecodeResult = .ok b1 → ext.inflateResult = .ok b2 →
      ext.unmarshalResult = .ok req → app.IsRedirectUriValid req.IssuerUrl = true →
      (app.SamlReplyUrl = "" → req.AssertionConsumerServiceURL ≠ "") →
      ext.constructSigResult = .ok sig →
      ext.writeToBytesResult = .ok bx → app.EnableSamlCompress = true →
      ext.flateNewWriterErr = some e →
      (GetSamlResponse app user host now fmtTime uuids gof ext).httpMethod
        = some (if app.SamlReplyUrl = "" then "GET" else "POST"))
    ∧ (∀ b1 b2 req sig bx e, ext.base64DecodeResult = .ok b1 → ext.inflateResult = .ok b2 →
      ext.unmarshalResult = .ok req → app.IsRedirectUriValid req.IssuerUrl = true →
      (app.SamlReplyUrl = "" → req.AssertionConsumerServiceURL ≠ "") →
      ext.constructSigResult = .ok sig →
      ext.writeToBytesResult = .ok bx → app.EnableSamlCompress = true →
      ext.flateNewWriterErr = none → ext.writerWriteErr = some e →
      (GetSamlResponse app user host now fmtTime uuids gof ext).httpMethod = some "")
    ∧ (∀ b1 b2 req sig bx e, ext.base64DecodeResult = .ok b1 → ext.inflateResult = .ok b2 →
      ext.unmarshalResult = .ok req → app.IsRedirectUriValid req.IssuerUrl = true →
      (app.SamlReplyUrl = "" → req.AssertionConsumerServiceURL ≠ "") →
      ext.constructSigResult = .ok sig →
      ext.writeToBytesResult = .ok bx → app.EnableSamlCompress = true →
      ext.flateNewWriterErr = none → ext.writerWriteErr = none →
      ext.writerCloseErr = some e →
      (GetSamlResponse app user host now fmtTime uuids gof ext).httpMethod = some "") := by
  refine ⟨?_, ?_, ?_, ?_, ?_, ?_, ?_, ?_, ?_⟩
  · intro e h1
    simp [GetSamlResponse, h1, GoOutcome.httpMethod]
  · intro b1 e h1 h2
    simp [GetSamlResponse, h1, h2, GoOutcome.httpMethod]
  · intro b1 b2 e h1 h2 h3
    simp [GetSamlResponse, h1, h2, h3, GoOutcome.httpMethod]
  · intro b1 b2 req h1 h2 h3 hv
    simp [GetSamlResponse, h1, h2, h3, hv, GoOutcome.httpMethod]
  · intro b1 b2 req h1 h2 h3 hv hrep hacs
    simp [GetSamlResponse, h1, h2, h3, hv, hrep, hacs, GoOutcome.httpMethod]
  · intro b1 b2 req sig e h1 h2 h3 hv hres hsig hw
    by_cases hrep : app.SamlReplyUrl = ""
    · simp [GetSamlResponse, h1, h2, h3, hv, hrep, hres hrep, hsig, hw,
        GoOutcome.httpMethod]
    · simp [GetSamlResponse, h1, h2, h3, hv, hrep, hsig, hw, GoOutcome.httpMethod]
  · intro b1 b2 req sig bx e h1 h2 h3 hv hres hsig hw hc hf
    by_cases hrep : app.SamlReplyUrl = ""
    · simp [GetSamlResponse, h1, h2, h3, hv, hrep, hres hrep, hsig, hw, hc, hf,
        GoOutcome.httpMethod]
    · simp [GetSamlResponse, h1, h2, h3, hv, hrep, hsig, hw, hc, hf,
        GoOutcome.httpMethod]
  · intro b1 b2 req sig bx e h1 h2 h3 hv hres hsig hw hc hf hwr
    by_cases hrep : app.SamlReplyUrl = ""
    · simp [GetSamlResponse, h1, h2, h3, hv, hrep, hres hrep, hsig, hw, hc, hf, hwr,
        GoOutcome.httpMethod]
    · simp [GetSamlResponse, h1, h2, h3, hv, hrep, hsig, hw, hc, hf, hwr,
        GoOutcome.httpMethod]
  · intro b1 b2 req sig bx e h1 h2 h3 hv hres hsig hw hc hf hwr hcl
    by_cases hrep : app.SamlReplyUrl = ""
    · simp [GetSamlResponse, h1, h2, h3, hv, hrep, hres hrep, hsig, hw, hc, hf, hwr,
        hcl, GoOutcome.httpMethod]
    · simp [GetSamlResponse, h1, h2, h3, hv, hrep, hsig, hw, hc, hf, hwr, hcl,
        GoOutcome.httpMethod]

/-- C10 amended, witness: the decompression-failure path at concrete
inputs. -/
theorem failure_method_by_path_witness :
    (GetSamlResponse sampleApp sampleUser "idp.example" 0 (fun n => toString n)
        (fun n => toString n) (fun h => (h, h))
        { okExternals with inflateResult := .error "corrupt stream" }).httpMethod
      = some "" := by
  exact (failure_method_by_path sampleApp sampleUser "idp.example" 0
    (fun n => toString n) (fun n => toString n) (fun h => (h, h))
    { okExternals with inflateResult := .error "corrupt stream" }).2.1
    [] "corrupt stream" rfl rfl

end SamlIdp
